import Mathlib

/-!
Shallow embedding of `sam_workflows/subcommands/accessfiles.py`.

External effects (the filesystem, PIL image decoding, PyMuPDF rendering,
the Azure upload helper) are modelled as oracles carried in an `Env`
record; the pipeline itself is a pure fold over the input rows in the
`Except` monad, where `Except.error` models an uncaught Python exception
propagating out of `generate_sam_access_files`.
-/

namespace SamAccess

/-- Configuration constants imported from `sam_workflows.settings` (that
module is not part of the snapshot; the pipeline uses the constants as
opaque values, so they are parameters of the model). -/
structure Config where
  watermarkWidth : ℚ
  largeSize : Nat
  mediumSize : Nat
  smallSize : Nat
  largePath : String
  mediumPath : String
  smallPath : String
  accessPath : String
  masterPath : String
  imageFormats : List String
deriving DecidableEq

/-- Python exceptions that can propagate out of the code under study. -/
inductive PyExc where
  | loadError (msg : String)
  | jsonError (msg : String)
  | keyError (key : String)
  | valueError (msg : String)
  | typeError (msg : String)
  | indexError (msg : String)
  | fitzError (msg : String)
  | pdfConvertError (msg : String)
  | otherError (msg : String)
deriving DecidableEq

/-- Local filesystem state: which paths are regular files and which are
directories.  `_generate_jpgs` appends the files it writes. -/
structure FS where
  files : List String
  dirs : List String
deriving DecidableEq

def FS.pathExists (fs : FS) (p : String) : Bool :=
  fs.files.contains p || fs.dirs.contains p

def FS.isFile (fs : FS) (p : String) : Bool :=
  fs.files.contains p

def FS.addFile (fs : FS) (p : String) : FS :=
  { fs with files := fs.files ++ [p] }

/-- A decoded PIL image as far as the code observes it: its pixel size,
whether the object has a `_getexif` attribute (the code's marker for
JPEGs), the result of `getexif()` (`none` models the `is None` branch the
code tests for), and its colour mode. -/
structure DecodedImage where
  width : ℚ
  height : ℚ
  hasGetexifAttr : Bool
  exifItems : Option (List (Nat × Int))
  mode : String
deriving DecidableEq

/-- Outcome of `PIL.Image.open`: `unidentified` models
`UnidentifiedImageError`, `failed` any other exception. -/
inductive OpenResult where
  | unidentified
  | failed (msg : String)
  | ok (img : DecodedImage)
deriving DecidableEq

/-- Oracles for the external collaborators. `saveError p = some e` means
`copy_img.save(p, "JPEG", ...)` raises; `renderError p = some e` means
`fitz.open`/`loadPage(0)`/`getPixmap` raises while rendering `p`;
`writePngError p = some e` means `pix.writePNG(p)` raises; `upload` is the
`upload_files` helper (positional URLs on success). -/
structure Env where
  openImage : String → OpenResult
  saveError : String → Option String
  renderError : String → Option String
  writePngError : String → Option String
  upload : List String → Bool → Except PyExc (List String)

/-- Split a character list on a separator (Python `str.split` on one
character, written structurally so the kernel can evaluate it). -/
def splitOnChar (sep : Char) : List Char → List (List Char)
  | [] => [[]]
  | c :: cs =>
    match splitOnChar sep cs with
    | [] => if c = sep then [[], []] else [[c]]
    | g :: gs => if c = sep then [] :: g :: gs else (c :: g) :: gs

/-- `pathlib` name as characters: last `/`-separated component. -/
def nameChars (p : String) : List Char :=
  (splitOnChar '/' p.toList).getLastD []

def pyName (p : String) : String :=
  (nameChars p).asString

/-- Index of the last `.` in a character list (Python `str.rfind`). -/
def lastDotIdx : List Char → Option Nat
  | [] => none
  | c :: cs =>
    match lastDotIdx cs with
    | some i => some (i + 1)
    | none => if c = '.' then some 0 else none

/-- `pathlib.PurePath.suffix`: `name[i:]` when `0 < i < len(name) - 1`
for `i = name.rfind('.')`, else the empty string. -/
def pySuffix (p : String) : String :=
  let b := nameChars p
  match lastDotIdx b with
  | some i => if 0 < i ∧ i + 1 < b.length then (b.drop i).asString else ""
  | none => ""

/-- `pathlib.PurePath.stem`: `name[:i]` under the same guard, else the
whole name. -/
def pyStem (p : String) : String :=
  let b := nameChars p
  match lastDotIdx b with
  | some i => if 0 < i ∧ i + 1 < b.length then (b.take i).asString else b.asString
  | none => b.asString

/-- `s.split(";")[0]`: the prefix of `s` before the first `;`. -/
def beforeSemi (s : String) : String :=
  (s.toList.takeWhile (· != ';')).asString

/-- ASCII whitespace (the model restricts Python's notion to ASCII). -/
def isPySpace (c : Char) : Bool :=
  c = ' ' || c = '\t' || c = '\n' || c = '\r'

def trimChars (l : List Char) : List Char :=
  ((l.dropWhile isPySpace).reverse.dropWhile isPySpace).reverse

def digitsValAux : List Char → Nat → Option Nat
  | [], acc => some acc
  | c :: cs, acc =>
    if c.isDigit then digitsValAux cs (acc * 10 + (c.toNat - 48)) else none

/-- Value of a nonempty all-digit string. -/
def digitsVal (cs : List Char) : Option Nat :=
  if cs.isEmpty then none else digitsValAux cs 0

/-- Python `int(s)` on a decimal literal: surrounding whitespace stripped,
optional sign, at least one digit; `none` models `ValueError`. -/
def parsePyInt (s : String) : Option Int :=
  match trimChars s.toList with
  | '-' :: rest => (digitsVal rest).map (fun n => -(n : Int))
  | '+' :: rest => (digitsVal rest).map (fun n => (n : Int))
  | rest => (digitsVal rest).map (fun n => (n : Int))

/-- The `ExifTags.TAGS` key whose value is `"Orientation"` (0x0112). -/
def orientTag : Nat := 274

/-- The one-shot EXIF rotation the code applies to the decoded image
before the per-size loop, recorded as the list of `Image.rotate` angles
performed (`rotate` keeps the pixel size since `expand` is left `False`).
Mirrors lines 73-92 of `accessfiles.py`. -/
def exifRots (img : DecodedImage) : List Int :=
  if img.hasGetexifAttr then
    match img.exifItems with
    | some items =>
      match items.lookup orientTag with
      | some 3 => [180]
      | some 6 => [270]
      | some 8 => [90]
      | _ => []
    | none => []
  else []

/-- Modelled from the spec: PIL `Image.thumbnail((s, s))` (the concrete
resampling code lives in the external PIL library).  The spec describes a
bounding-box constrained proportional copy that never upscales; PIL is a
no-op exactly when both sides already fit.  Dimensions are rationals so
the proportion is exact. -/
def thumbFit (w h s : ℚ) : ℚ × ℚ :=
  if w ≤ s ∧ h ≤ s then (w, h)
  else (w * s / max w h, h * s / max w h)

/-- Observable data of the per-size copy produced inside the loop of
`_generate_jpgs`: its target size, its dimensions after `thumbnail`, the
rotations its source image had undergone, whether a watermark was
composited (`add_watermark` is modelled from the spec as a pure overlay
keeping the dimensions), and its colour mode after the RGB conversion. -/
structure CopyInfo where
  size : Nat
  width : ℚ
  height : ℚ
  rotations : List Int
  watermarked : Bool
  mode : String
deriving DecidableEq

/-- The per-size copy of `_generate_jpgs` (lines 94-105). -/
def copyFor (cfg : Config) (watermark : Bool) (img : DecodedImage)
    (rots : List Int) (size : Nat) : CopyInfo :=
  let d := thumbFit img.width img.height (size : ℚ)
  { size := size
    width := d.1
    height := d.2
    rotations := rots
    watermarked := watermark && decide (cfg.watermarkWidth < d.1)
    mode := if img.mode ≠ "RGB" then "RGB" else img.mode }

/-- The `resp` dict of `_generate_jpgs`: per-size output paths plus the
`"error"` entry. -/
structure GenResp where
  files : List (Nat × String)
  error : Option String
deriving DecidableEq

/-- Python dict assignment `d[k] = v` on an association list. -/
def dictSet (l : List (Nat × String)) (k : Nat) (v : String) : List (Nat × String) :=
  if (l.lookup k).isSome then l.map (fun kv => if kv.1 = k then (k, v) else kv)
  else l ++ [(k, v)]

def GenResp.get (r : GenResp) (k : Nat) : Option String :=
  r.files.lookup k

def GenResp.setFile (r : GenResp) (k : Nat) (v : String) : GenResp :=
  { r with files := dictSet r.files k v }

def GenResp.setErr (r : GenResp) (e : String) : GenResp :=
  { r with error := some e }

/-- `convert_resp.get("error")` used as a truth value. -/
def GenResp.errTruthy (r : GenResp) : Bool :=
  match r.error with
  | some e => e != ""
  | none => false

/-- The `access_dirs` dict literal of `_generate_jpgs` (lines 107-111),
with Python dict-literal semantics (a later duplicate key overwrites). -/
def accessDirs (cfg : Config) : List (Nat × String) :=
  dictSet (dictSet (dictSet [] cfg.largeSize cfg.largePath)
    cfg.mediumSize cfg.mediumPath) cfg.smallSize cfg.smallPath

/-- `access_dirs.get(size) or SAM_ACCESS_PATH` (line 113): a missing key
or a falsy (empty) path falls back to the generic access directory. -/
def accessDir (cfg : Config) (size : Nat) : String :=
  match (accessDirs cfg).lookup size with
  | some p => if p = "" then cfg.accessPath else p
  | none => cfg.accessPath

/-- `Path(out_dir, img_in.stem + ".jpg")` (lines 113-115). -/
def destFile (cfg : Config) (stem : String) (size : Nat) : String :=
  accessDir cfg size ++ "/" ++ (stem ++ ".jpg")

/-- State threaded through the per-size loop: the `resp` dict, the
filesystem, and the trace of copies produced so far. -/
structure GenState where
  resp : GenResp
  fs : FS
  trace : List CopyInfo
deriving DecidableEq

/-- One iteration of the `for size in sizes` loop of `_generate_jpgs`
(lines 94-130): make the copy, then either record the already-exists
error, record a save error, or write the file and record its path. -/
def genStep (cfg : Config) (env : Env) (stem : String) (watermark ovw : Bool)
    (img : DecodedImage) (rots : List Int) (size : Nat) (st : GenState) : GenState :=
  let c := copyFor cfg watermark img rots size
  let outFile := destFile cfg stem size
  let st1 : GenState := { st with trace := st.trace ++ [c] }
  if !ovw && st1.fs.pathExists outFile then
    { st1 with resp := st1.resp.setErr ("File already exists: " ++ outFile) }
  else
    match env.saveError outFile with
    | some e => { st1 with resp := st1.resp.setErr ("Error saving file: " ++ e) }
    | none =>
      { st1 with
        resp := st1.resp.setFile size outFile
        fs := st1.fs.addFile outFile }

/-- The `for size in sizes` loop itself. -/
def genLoop (cfg : Config) (env : Env) (stem : String) (watermark ovw : Bool)
    (img : DecodedImage) (rots : List Int) : List Nat → GenState → GenState
  | [], st => st
  | size :: rest, st =>
    genLoop cfg env stem watermark ovw img rots rest
      (genStep cfg env stem watermark ovw img rots size st)

/-- `_generate_jpgs` (lines 55-131).  Returns the `resp` dict, the
filesystem after any writes, and the trace of per-size copies.  The
`quality` argument only feeds the JPEG encoder, which is external, so it
is not a parameter of the model. -/
def generateJpgs (cfg : Config) (env : Env) (imgIn : String) (sizes : List Nat)
    (watermark ovw : Bool) (fs : FS) : GenResp × FS × List CopyInfo :=
  match env.openImage imgIn with
  | .unidentified =>
    ({ files := [], error := some ("Failed to open " ++ imgIn ++ " as an image.") }, fs, [])
  | .failed e =>
    ({ files := [], error := some ("Error opening file " ++ pyName imgIn ++ ": " ++ e) }, fs, [])
  | .ok img =>
    let st := genLoop cfg env (pyStem imgIn) watermark ovw img (exifRots img) sizes
      { resp := { files := [], error := none }, fs := fs, trace := [] }
    (st.resp, st.fs, st.trace)

/-- `_convert_pdf_cover_to_image` (lines 43-52): only `pix.writePNG` is
inside the `try`, so a rendering failure propagates the underlying fitz
error unchanged while a write failure is re-raised as `PDFConvertError`
with the original error as its argument. -/
def convertPdfCoverToImage (env : Env) (pdfIn outFolder : String) : Except PyExc String :=
  match env.renderError pdfIn with
  | some e => .error (.fitzError e)
  | none =>
    let outFile := outFolder ++ "/" ++ pyStem pdfIn ++ ".png"
    match env.writePngError outFile with
    | some e => .error (.pdfConvertError e)
    | none => .ok outFile

/-- The decoded `oasDataJsonEncoded` object, keeping only the keys the
code reads.  `none` fields model absent keys. -/
structure SamData where
  other_restrictions : Option String
  contractual_status : Option String
  filename : Option String
deriving DecidableEq

/-- One input row: either its embedded JSON fails to decode
(`json.loads` raises) or it yields a `SamData`. -/
inductive RowJson where
  | invalid (msg : String)
  | ok (d : SamData)
deriving DecidableEq

inductive RightsResult where
  | proceed
  | skipLegal
  | skipContractual
deriving DecidableEq

/-- The rights check of lines 186-202: `int(legal.split(";")[0])` then,
only if that passes, `int(contractual.split(";")[0])`.  A token `int()`
cannot parse raises `ValueError`. -/
def checkRights (legal contractual : String) : Except PyExc RightsResult :=
  match parsePyInt (beforeSemi legal) with
  | none => .error (.valueError (beforeSemi legal))
  | some lv =>
    if lv > 1 then .ok .skipLegal
    else
      match parsePyInt (beforeSemi contractual) with
      | none => .error (.valueError (beforeSemi contractual))
      | some cv =>
        if cv < 3 then .ok .skipContractual else .ok .proceed

/-- The four counters of the run. -/
structure Tally where
  converted : Nat
  skipped : Nat
  failed : Nat
  uploaded : Nat
deriving DecidableEq

def Tally.addConverted (t : Tally) : Tally := { t with converted := t.converted + 1 }

def Tally.addSkipped (t : Tally) : Tally := { t with skipped := t.skipped + 1 }

def Tally.addFailed (t : Tally) : Tally := { t with failed := t.failed + 1 }

def Tally.addUploaded (t : Tally) : Tally := { t with uploaded := t.uploaded + 1 }

/-- The dict appended to `output` (lines 275-284).  `thumbnail` and
`record_image` hold whatever `convert_resp.get(...)`/`urls[...]`
produced, so they are options. -/
structure OutputRecord where
  oasid : String
  thumbnail : Option String
  record_image : Option String
  record_type : String
  large_image : String
  web_document_url : String
deriving DecidableEq

/-- Python `large or ""` (line 281). -/
def pyOrEmpty : Option String → String
  | some l => if l = "" then "" else l
  | none => ""

def mkOutput (stem : String) (small medium : Option String) (rtype : String)
    (large : Option String) : OutputRecord :=
  { oasid := stem
    thumbnail := small
    record_image := medium
    record_type := rtype
    large_image := pyOrEmpty large
    web_document_url := "web_url" }

/-- Arguments and response of one call the pipeline makes to
`_generate_jpgs`; `overwriteArg`/`qualityArg` record the values the
callee receives (the call at lines 235-237 passes neither, so Python
fills the defaults `False` and `80`). -/
structure GenCall where
  pathArg : String
  sizesArg : List Nat
  watermarkArg : Bool
  overwriteArg : Bool
  qualityArg : Nat
  resp : GenResp
deriving DecidableEq

/-- Pipeline state threaded through the row loop. -/
structure PipeState where
  out : List OutputRecord
  tally : Tally
  fs : FS
  genCalls : List GenCall
deriving DecidableEq

/-- Outcome of a row before the upload step. -/
inductive ConvOutcome where
  | skippedRow
  | failedRow
  | convertedRow (resp : GenResp) (recordType : String) (stem : String)
deriving DecidableEq

/-- Tail of the per-row conversion: call `_generate_jpgs` (lines 235-237,
with `overwrite` left at its default `False` and `quality` at `80`) and
interpret the response (lines 240-246). -/
def finishConvert (cfg : Config) (env : Env) (watermark : Bool) (fs : FS)
    (fp : String) (sizes : List Nat) (rtype : String) :
    Except PyExc (ConvOutcome × FS × List GenCall) :=
  let r := generateJpgs cfg env fp sizes watermark false fs
  let call : GenCall :=
    { pathArg := fp, sizesArg := sizes, watermarkArg := watermark
      overwriteArg := false, qualityArg := 80, resp := r.1 }
  if r.1.errTruthy then .ok (.failedRow, r.2.1, [call])
  else .ok (.convertedRow r.1 rtype (pyStem fp), r.2.1, [call])

/-- Lines 184-246 of the row loop: JSON decode, rights check, path
checks, format dispatch and conversion.  Errors returned here are
uncaught Python exceptions. -/
def convertPhase (cfg : Config) (env : Env) (watermark : Bool) (fs : FS)
    (row : RowJson) : Except PyExc (ConvOutcome × FS × List GenCall) :=
  match row with
  | .invalid msg => .error (.jsonError msg)
  | .ok d =>
    match d.filename with
    | none => .error (.keyError "filename")
    | some filename =>
      match checkRights (d.other_restrictions.getD "4") (d.contractual_status.getD "1") with
      | .error e => .error e
      | .ok .skipLegal => .ok (.skippedRow, fs, [])
      | .ok .skipContractual => .ok (.skippedRow, fs, [])
      | .ok .proceed =>
        let filepath := cfg.masterPath ++ "/" ++ filename
        if !fs.pathExists filepath then .ok (.failedRow, fs, [])
        else if !fs.isFile filepath then .ok (.failedRow, fs, [])
        else if cfg.imageFormats.contains (pySuffix filepath) then
          finishConvert cfg env watermark fs filepath
            [cfg.largeSize, cfg.mediumSize, cfg.smallSize] "image"
        else if pySuffix filepath = ".pdf" then
          match convertPdfCoverToImage env filepath "./images/temp" with
          | .error e => .error e
          | .ok newPath =>
            finishConvert cfg env watermark (fs.addFile newPath) newPath
              [cfg.mediumSize, cfg.smallSize] "web_document"
        else .ok (.skippedRow, fs, [])

/-- The `try` block of lines 257-266: the upload call and the three
positional indexings `urls[0]`, `urls[1]`, `urls[2]`; a short list makes
the indexing raise `IndexError`, which the surrounding `except` catches
just like an upload failure. -/
def uploadBlock (env : Env) (fps : List String) (ovw : Bool) :
    Except PyExc (String × String × String) :=
  match env.upload fps ovw with
  | .error e => .error e
  | .ok urls =>
    match urls.get? 0, urls.get? 1, urls.get? 2 with
    | some s, some m, some l => .ok (s, m, l)
    | _, _, _ => .error (.indexError "list index out of range")

/-- Python `if large:` at line 255. -/
def largeAppend : Option String → List String
  | some l => if l = "" then [] else [l]
  | none => []

/-- One iteration of the `for file in files` loop (lines 184-284). -/
def processRow (cfg : Config) (env : Env) (watermark upl ovw : Bool)
    (st : PipeState) (row : RowJson) : Except PyExc PipeState :=
  match convertPhase cfg env watermark st.fs row with
  | .error e => .error e
  | .ok (outc, fs', calls) =>
    let st := { st with fs := fs', genCalls := st.genCalls ++ calls }
    match outc with
    | .skippedRow => .ok { st with tally := st.tally.addSkipped }
    | .failedRow => .ok { st with tally := st.tally.addFailed }
    | .convertedRow resp rtype stem =>
      let small := resp.get cfg.smallSize
      let medium := resp.get cfg.mediumSize
      let large := resp.get cfg.largeSize
      if upl then
        match small, medium with
        | some s, some m =>
          match uploadBlock env ([s, m] ++ largeAppend large) ovw with
          | .ok (s2, m2, l2) =>
            .ok { st with
              tally := st.tally.addConverted.addUploaded
              out := st.out ++ [mkOutput stem (some s2) (some m2) rtype (some l2)] }
          | .error _ => .ok { st with tally := st.tally.addConverted.addFailed }
        | _, _ => .error (.typeError "argument should be a str or an os.PathLike object, not NoneType")
      else
        .ok { st with
          tally := st.tally.addConverted
          out := st.out ++ [mkOutput stem small medium rtype large] }

/-- The row loop as a fold; the first uncaught exception aborts it. -/
def runRows (cfg : Config) (env : Env) (watermark upl ovw : Bool) :
    List RowJson → PipeState → Except PyExc PipeState
  | [], st => .ok st
  | row :: rest, st =>
    match processRow cfg env watermark upl ovw st row with
    | .error e => .error e
    | .ok st' => runRows cfg env watermark upl ovw rest st'

def initState (fs0 : FS) : PipeState :=
  { out := [], tally := ⟨0, 0, 0, 0⟩, fs := fs0, genCalls := [] }

/-- `generate_sam_access_files` (lines 134-293).  `loadResult` is the
outcome of `load_csv_from_sam`; its failure is re-raised (lines 171-175)
and aborts before the loop. -/
def generateSamAccessFiles (cfg : Config) (env : Env) (fs0 : FS)
    (loadResult : Except String (List RowJson)) (watermark upl ovw : Bool) :
    Except PyExc PipeState :=
  match loadResult with
  | .error e => .error (.loadError e)
  | .ok rows => runRows cfg env watermark upl ovw rows (initState fs0)

/-- `if output: save_csv_to_sam(output, csv_out)` (lines 285-286). -/
def savesCsv (r : Except PyExc PipeState) : Bool :=
  match r with
  | .ok st => !st.out.isEmpty
  | .error _ => false

/-! ## Concrete fixtures used by counterexamples and witnesses -/

def sampleCfg : Config :=
  { watermarkWidth := 640, largeSize := 1920, mediumSize := 640, smallSize := 150
    largePath := "access/large", mediumPath := "access/medium", smallPath := "access/small"
    accessPath := "access", masterPath := "master"
    imageFormats := [".jpg", ".jpeg", ".png", ".tif"] }

/-- A 3000x2000 JPEG whose EXIF orientation entry is 6. -/
def sampleImg : DecodedImage :=
  { width := 3000, height := 2000, hasGetexifAttr := true
    exifItems := some [(orientTag, 6)], mode := "RGB" }

/-- Modelled from the spec: the `upload_files` helper lives in the
`helpers` module, which is not part of the snapshot; the spec states it
returns URLs positionally matching the input path order, so this
all-succeeding environment returns exactly one URL per input path. -/
def benignEnv : Env :=
  { openImage := fun _ => .ok sampleImg
    saveError := fun _ => none
    renderError := fun _ => none
    writePngError := fun _ => none
    upload := fun ps _ => .ok (ps.map (fun p => "https://blob/" ++ p)) }

def fsImg : FS := { files := ["master/a.jpg"], dirs := [] }

def fsPdf : FS := { files := ["master/doc.pdf"], dirs := [] }

def imgRow : RowJson :=
  .ok { other_restrictions := some "0", contractual_status := some "3", filename := some "a.jpg" }

def pdfRow : RowJson :=
  .ok { other_restrictions := some "0", contractual_status := some "3", filename := some "doc.pdf" }

/-- A row whose legal status is not an integer token. -/
def badRow : RowJson :=
  .ok { other_restrictions := some "abc", contractual_status := some "3", filename := some "a.jpg" }

def pdfWriteFailEnv : Env := { benignEnv with writePngError := fun _ => some "disk full" }

def renderFailEnv : Env := { benignEnv with renderError := fun _ => some "bad xref" }

def uploadFailEnv : Env := { benignEnv with upload := fun _ _ => .error (.otherError "azure down") }

/-! ## Helper lemmas -/

theorem genStep_trace (cfg : Config) (env : Env) (stem : String) (w o : Bool)
    (img : DecodedImage) (rots : List Int) (size : Nat) (st : GenState) :
    (genStep cfg env stem w o img rots size st).trace
      = st.trace ++ [copyFor cfg w img rots size] := by
  unfold genStep
  dsimp only
  split
  · rfl
  · split <;> rfl

theorem genLoop_trace (cfg : Config) (env : Env) (stem : String) (w o : Bool)
    (img : DecodedImage) (rots : List Int) (sizes : List Nat) :
    ∀ st : GenState,
      (genLoop cfg env stem w o img rots sizes st).trace
        = st.trace ++ sizes.map (copyFor cfg w img rots) := by
  induction sizes with
  | nil => intro st; simp [genLoop]
  | cons size rest ih =>
    intro st
    simp only [genLoop]
    rw [ih, genStep_trace]
    simp

theorem thumbFit_aspect (w h s : ℚ) :
    (thumbFit w h s).1 * h = (thumbFit w h s).2 * w := by
  unfold thumbFit
  split
  · dsimp only; ring
  · dsimp only; ring

theorem thumbFit_noUpscale (w h s : ℚ) (hw : 0 < w) (hh : 0 < h) :
    (thumbFit w h s).1 ≤ w ∧ (thumbFit w h s).2 ≤ h := by
  unfold thumbFit
  split
  · exact ⟨le_refl w, le_refl h⟩
  · rename_i hns
    have hm : 0 < max w h := lt_max_iff.mpr (Or.inl hw)
    have hsm : s ≤ max w h := by
      rcases not_and_or.mp hns with h1 | h1
      · exact le_trans (not_le.mp h1).le (le_max_left w h)
      · exact le_trans (not_le.mp h1).le (le_max_right w h)
    constructor
    · dsimp only
      rw [div_le_iff₀ hm]
      nlinarith
    · dsimp only
      rw [div_le_iff₀ hm]
      nlinarith

theorem thumbFit_le_target (w h s : ℚ) (hw : 0 < w) (hh : 0 < h) (hs : 0 ≤ s) :
    max (thumbFit w h s).1 (thumbFit w h s).2 ≤ s := by
  unfold thumbFit
  split
  · rename_i hb
    exact max_le hb.1 hb.2
  · rename_i hns
    have hm : 0 < max w h := lt_max_iff.mpr (Or.inl hw)
    apply max_le
    · dsimp only
      rw [div_le_iff₀ hm]
      nlinarith [le_max_left w h]
    · dsimp only
      rw [div_le_iff₀ hm]
      nlinarith [le_max_right w h]

/-! ## Claims -/

/-- C2: for status pairs whose leading integer tokens parse, the rights
filter skips on legal code > 1 first, then on contractual code < 3, and
otherwise proceeds; the nested conditional shows the legal check is
evaluated before the contractual one, so a record failing both is
reported as a legal skip. -/
theorem rights_filter_order (legal contractual : String) (lv cv : Int)
    (hl : parsePyInt (beforeSemi legal) = some lv)
    (hc : parsePyInt (beforeSemi contractual) = some cv) :
    checkRights legal contractual =
      .ok (if lv > 1 then .skipLegal
           else if cv < 3 then .skipContractual
           else .proceed) := by
  simp only [checkRights, hl, hc]
  split_ifs <;> rfl

theorem rights_filter_order_witness : checkRights "4;7" "0" = .ok .skipLegal := by
  have h := rights_filter_order "4;7" "0" 4 0 (by decide) (by decide)
  rw [if_pos (by decide : (4 : Int) > 1)] at h
  exact h

/-- Expected one-shot rotation for a given EXIF item list, as the claim
states it: orientation 3 rotates 180, 6 rotates 270, 8 rotates 90, any
other or missing value leaves the image unrotated. -/
def claimedRots (items : List (Nat × Int)) : List Int :=
  match items.lookup orientTag with
  | some 3 => [180]
  | some 6 => [270]
  | some 8 => [90]
  | _ => []

/-- C7: for a decoded source image carrying EXIF metadata, every per-size
copy carries exactly the single pre-loop rotation dictated by the
orientation value (3 -> 180, 6 -> 270, 8 -> 90, other/missing -> none);
the rotation list is the same constant for every requested size, i.e. no
rotation happens inside the per-size branching. -/
theorem exif_rotation_once (cfg : Config) (env : Env) (imgIn : String)
    (sizes : List Nat) (w o : Bool) (fs : FS) (img : DecodedImage)
    (items : List (Nat × Int))
    (hopen : env.openImage imgIn = .ok img)
    (hattr : img.hasGetexifAttr = true)
    (hitems : img.exifItems = some items) :
    ((generateJpgs cfg env imgIn sizes w o fs).2.2).map (fun c => c.rotations)
      = sizes.map (fun _ => claimedRots items) := by
  simp only [generateJpgs, hopen]
  rw [genLoop_trace]
  simp only [List.nil_append, List.map_map]
  apply List.map_congr_left
  intro s _
  simp [Function.comp, copyFor, exifRots, claimedRots, hattr, hitems]

theorem exif_rotation_once_witness :
    ((generateJpgs sampleCfg benignEnv "master/a.jpg" [1920, 640, 150] false false
      fsImg).2.2).map (fun c => c.rotations) = [[270], [270], [270]] := by
  have h := exif_rotation_once sampleCfg benignEnv "master/a.jpg" [1920, 640, 150] false false
    fsImg sampleImg [(orientTag, 6)] rfl rfl rfl
  rw [h]
  rfl

/-- C9: every per-size copy is a proportional bounding-box fit of the
decoded (orientation-corrected, which keeps the pixel size) source:
exact aspect ratio, no dimension exceeding the source, and longest side
at most the target size. -/
theorem thumbnail_bounding_box (cfg : Config) (env : Env) (imgIn : String)
    (sizes : List Nat) (w o : Bool) (fs : FS) (img : DecodedImage)
    (hopen : env.openImage imgIn = .ok img)
    (hw : 0 < img.width) (hh : 0 < img.height) :
    ∀ c ∈ (generateJpgs cfg env imgIn sizes w o fs).2.2,
      c.width * img.height = c.height * img.width ∧
      c.width ≤ img.width ∧ c.height ≤ img.height ∧
      max c.width c.height ≤ (c.size : ℚ) := by
  intro c hc
  simp only [generateJpgs, hopen] at hc
  rw [genLoop_trace] at hc
  simp only [List.nil_append, List.mem_map] at hc
  obtain ⟨s, hsmem, rfl⟩ := hc
  have hcast : (0 : ℚ) ≤ (s : ℚ) := Nat.cast_nonneg s
  refine ⟨?_, ?_, ?_, ?_⟩
  · simpa [copyFor] using thumbFit_aspect img.width img.height (s : ℚ)
  · simpa [copyFor] using (thumbFit_noUpscale img.width img.height (s : ℚ) hw hh).1
  · simpa [copyFor] using (thumbFit_noUpscale img.width img.height (s : ℚ) hw hh).2
  · simpa [copyFor] using thumbFit_le_target img.width img.height (s : ℚ) hw hh hcast

/-- The large copy of the sample run, used to witness C9. -/
def c9elem : CopyInfo := copyFor sampleCfg false sampleImg [270] 1920

theorem c9elem_mem :
    c9elem ∈ (generateJpgs sampleCfg benignEnv "master/a.jpg" [1920, 640, 150]
      false false fsImg).2.2 := by
  have hopen : benignEnv.openImage "master/a.jpg" = .ok sampleImg := rfl
  simp only [generateJpgs, hopen]
  rw [genLoop_trace]
  simp only [List.nil_append, List.mem_map]
  refine ⟨1920, by simp, ?_⟩
  have : exifRots sampleImg = [270] := rfl
  rw [this]
  rfl

theorem thumbnail_bounding_box_witness :
    c9elem.width * sampleImg.height = c9elem.height * sampleImg.width ∧
    c9elem.width ≤ sampleImg.width ∧ c9elem.height ≤ sampleImg.height ∧
    max c9elem.width c9elem.height ≤ (c9elem.size : ℚ) :=
  thumbnail_bounding_box sampleCfg benignEnv "master/a.jpg" [1920, 640, 150] false false
    fsImg sampleImg rfl (by norm_num [sampleImg]) (by norm_num [sampleImg])
    c9elem c9elem_mem

/-! ## Reduction lemmas for the row loop -/

theorem processRow_error (cfg : Config) (env : Env) (w u o : Bool) (st : PipeState)
    (row : RowJson) (e : PyExc)
    (h : convertPhase cfg env w st.fs row = .error e) :
    processRow cfg env w u o st row = .error e := by
  simp only [processRow, h]

theorem processRow_skipped (cfg : Config) (env : Env) (w u o : Bool) (st : PipeState)
    (row : RowJson) (fs' : FS) (calls : List GenCall)
    (h : convertPhase cfg env w st.fs row = .ok (.skippedRow, fs', calls)) :
    processRow cfg env w u o st row =
      .ok { st with
            fs := fs'
            genCalls := st.genCalls ++ calls
            tally := st.tally.addSkipped } := by
  simp only [processRow, h]

theorem processRow_failed (cfg : Config) (env : Env) (w u o : Bool) (st : PipeState)
    (row : RowJson) (fs' : FS) (calls : List GenCall)
    (h : convertPhase cfg env w st.fs row = .ok (.failedRow, fs', calls)) :
    processRow cfg env w u o st row =
      .ok { st with
            fs := fs'
            genCalls := st.genCalls ++ calls
            tally := st.tally.addFailed } := by
  simp only [processRow, h]

theorem processRow_converted_noUpload (cfg : Config) (env : Env) (w o : Bool)
    (st : PipeState) (row : RowJson) (resp : GenResp) (rtype stem : String)
    (fs' : FS) (calls : List GenCall)
    (h : convertPhase cfg env w st.fs row = .ok (.convertedRow resp rtype stem, fs', calls)) :
    processRow cfg env w false o st row =
      .ok { st with
            fs := fs'
            genCalls := st.genCalls ++ calls
            tally := st.tally.addConverted
            out := st.out ++ [mkOutput stem (resp.get cfg.smallSize)
              (resp.get cfg.mediumSize) rtype (resp.get cfg.largeSize)] } := by
  simp [processRow, h]

theorem processRow_upload_err (cfg : Config) (env : Env) (w o : Bool)
    (st : PipeState) (row : RowJson) (resp : GenResp) (rtype stem : String)
    (fs' : FS) (calls : List GenCall) (s m : String) (e : PyExc)
    (h : convertPhase cfg env w st.fs row = .ok (.convertedRow resp rtype stem, fs', calls))
    (hs : resp.get cfg.smallSize = some s)
    (hm : resp.get cfg.mediumSize = some m)
    (hu : uploadBlock env (s :: m :: largeAppend (resp.get cfg.largeSize)) o = .error e) :
    processRow cfg env w true o st row =
      .ok { st with
            fs := fs'
            genCalls := st.genCalls ++ calls
            tally := st.tally.addConverted.addFailed } := by
  simp [processRow, h, hs, hm, hu]

theorem processRow_upload_ok (cfg : Config) (env : Env) (w o : Bool)
    (st : PipeState) (row : RowJson) (resp : GenResp) (rtype stem : String)
    (fs' : FS) (calls : List GenCall) (s m s2 m2 l2 : String)
    (h : convertPhase cfg env w st.fs row = .ok (.convertedRow resp rtype stem, fs', calls))
    (hs : resp.get cfg.smallSize = some s)
    (hm : resp.get cfg.mediumSize = some m)
    (hu : uploadBlock env (s :: m :: largeAppend (resp.get cfg.largeSize)) o = .ok (s2, m2, l2)) :
    processRow cfg env w true o st row =
      .ok { st with
            fs := fs'
            genCalls := st.genCalls ++ calls
            tally := st.tally.addConverted.addUploaded
            out := st.out ++ [mkOutput stem (some s2) (some m2) rtype (some l2)] } := by
  simp [processRow, h, hs, hm, hu]

theorem runRows_cons_ok (cfg : Config) (env : Env) (w u o : Bool) (row : RowJson)
    (rest : List RowJson) (st st' : PipeState)
    (h : processRow cfg env w u o st row = .ok st') :
    runRows cfg env w u o (row :: rest) st = runRows cfg env w u o rest st' := by
  simp only [runRows, h]

theorem runRows_cons_error (cfg : Config) (env : Env) (w u o : Bool) (row : RowJson)
    (rest : List RowJson) (st : PipeState) (e : PyExc)
    (h : processRow cfg env w u o st row = .error e) :
    runRows cfg env w u o (row :: rest) st = .error e := by
  simp only [runRows, h]

theorem convertPhase_rightsError (cfg : Config) (env : Env) (w : Bool) (fs : FS)
    (d : SamData) (fn : String) (e : PyExc)
    (hfn : d.filename = some fn)
    (hr : checkRights (d.other_restrictions.getD "4") (d.contractual_status.getD "1") = .error e) :
    convertPhase cfg env w fs (.ok d) = .error e := by
  simp only [convertPhase, hfn, hr]

theorem convertPhase_skipLegal (cfg : Config) (env : Env) (w : Bool) (fs : FS)
    (d : SamData) (fn : String)
    (hfn : d.filename = some fn)
    (hr : checkRights (d.other_restrictions.getD "4") (d.contractual_status.getD "1") = .ok .skipLegal) :
    convertPhase cfg env w fs (.ok d) = .ok (.skippedRow, fs, []) := by
  simp only [convertPhase, hfn, hr]

theorem convertPhase_skipContractual (cfg : Config) (env : Env) (w : Bool) (fs : FS)
    (d : SamData) (fn : String)
    (hfn : d.filename = some fn)
    (hr : checkRights (d.other_restrictions.getD "4") (d.contractual_status.getD "1") = .ok .skipContractual) :
    convertPhase cfg env w fs (.ok d) = .ok (.skippedRow, fs, []) := by
  simp only [convertPhase, hfn, hr]

theorem convertPhase_image (cfg : Config) (env : Env) (w : Bool) (fs : FS)
    (d : SamData) (fn : String)
    (hfn : d.filename = some fn)
    (hr : checkRights (d.other_restrictions.getD "4") (d.contractual_status.getD "1") = .ok .proceed)
    (hex : fs.pathExists (cfg.masterPath ++ "/" ++ fn) = true)
    (hisf : fs.isFile (cfg.masterPath ++ "/" ++ fn) = true)
    (himg : cfg.imageFormats.contains (pySuffix (cfg.masterPath ++ "/" ++ fn)) = true) :
    convertPhase cfg env w fs (.ok d)
      = finishConvert cfg env w fs (cfg.masterPath ++ "/" ++ fn)
          [cfg.largeSize, cfg.mediumSize, cfg.smallSize] "image" := by
  simp [convertPhase, hfn, hr, hex, hisf, himg]
  intro hn
  exact absurd (by simpa using himg) hn

theorem convertPhase_pdf_error (cfg : Config) (env : Env) (w : Bool) (fs : FS)
    (d : SamData) (fn : String) (ex : PyExc)
    (hfn : d.filename = some fn)
    (hr : checkRights (d.other_restrictions.getD "4") (d.contractual_status.getD "1") = .ok .proceed)
    (hex : fs.pathExists (cfg.masterPath ++ "/" ++ fn) = true)
    (hisf : fs.isFile (cfg.masterPath ++ "/" ++ fn) = true)
    (hnimg : cfg.imageFormats.contains (pySuffix (cfg.masterPath ++ "/" ++ fn)) = false)
    (hpdf : pySuffix (cfg.masterPath ++ "/" ++ fn) = ".pdf")
    (hcv : convertPdfCoverToImage env (cfg.masterPath ++ "/" ++ fn) "./images/temp" = .error ex) :
    convertPhase cfg env w fs (.ok d) = .error ex := by
  simp [convertPhase, hfn, hr, hex, hisf, hnimg, hpdf, hcv]
  intro hn
  exact absurd hn (by simpa [hpdf] using hnimg)

theorem finishConvert_error (cfg : Config) (env : Env) (w : Bool) (fs : FS)
    (fp : String) (sizes : List Nat) (rtype : String)
    (he : (generateJpgs cfg env fp sizes w false fs).1.errTruthy = true) :
    finishConvert cfg env w fs fp sizes rtype
      = .ok (.failedRow, (generateJpgs cfg env fp sizes w false fs).2.1,
          [{ pathArg := fp, sizesArg := sizes, watermarkArg := w,
             overwriteArg := false, qualityArg := 80,
             resp := (generateJpgs cfg env fp sizes w false fs).1 }]) := by
  simp only [finishConvert, he]
  rfl

theorem finishConvert_ok (cfg : Config) (env : Env) (w : Bool) (fs : FS)
    (fp : String) (sizes : List Nat) (rtype : String)
    (he : (generateJpgs cfg env fp sizes w false fs).1.errTruthy = false) :
    finishConvert cfg env w fs fp sizes rtype
      = .ok (.convertedRow (generateJpgs cfg env fp sizes w false fs).1 rtype (pyStem fp),
          (generateJpgs cfg env fp sizes w false fs).2.1,
          [{ pathArg := fp, sizesArg := sizes, watermarkArg := w,
             overwriteArg := false, qualityArg := 80,
             resp := (generateJpgs cfg env fp sizes w false fs).1 }]) := by
  simp only [finishConvert, he]
  rfl

/-- Response of the sample image conversion (three sizes written). -/
def respA : GenResp :=
  { files := [(1920, "access/large/a.jpg"), (640, "access/medium/a.jpg"),
      (150, "access/small/a.jpg")]
    error := none }

/-- Filesystem after the sample image conversion. -/
def fsA : FS :=
  { files := ["master/a.jpg", "access/large/a.jpg", "access/medium/a.jpg",
      "access/small/a.jpg"]
    dirs := [] }

/-- The generator call the pipeline makes for the sample image row. -/
def callA : GenCall :=
  { pathArg := "master/a.jpg", sizesArg := [1920, 640, 150], watermarkArg := false
    overwriteArg := false, qualityArg := 80, resp := respA }

/-- C1 counterexample: a per-record error (the PNG write of a PDF cover
fails) aborts the whole run even though the initial CSV load succeeded
and a further row was waiting — the run ends in an uncaught
PDFConvertError instead of tallying the row and continuing. -/
theorem per_row_error_policy_counterexample :
    generateSamAccessFiles sampleCfg pdfWriteFailEnv fsPdf (.ok [pdfRow, imgRow])
      false false false = .error (.pdfConvertError "disk full") := rfl

/-- C1 (amended): image-conversion failures (reported through the error
entry of the generator response) and any exception raised inside the
upload try-block are caught, tallied as failed, and the loop continues
with the next row; but a row whose embedded JSON is invalid raises an
uncaught exception that aborts the run, as does any exception escaping
the conversion phase (non-integer rights tokens, missing filename key,
PDF cover extraction failures), and as does failure to load the initial
input rows. -/
theorem per_row_error_policy (cfg : Config) (env : Env) (w u o : Bool)
    (st : PipeState) (row : RowJson) (rest : List RowJson) :
    (∀ fs' calls, convertPhase cfg env w st.fs row = .ok (.failedRow, fs', calls) →
      runRows cfg env w u o (row :: rest) st =
        runRows cfg env w u o rest
          { st with
            fs := fs'
            genCalls := st.genCalls ++ calls
            tally := st.tally.addFailed }) ∧
    (∀ resp rtype stem fs' calls s m e,
      convertPhase cfg env w st.fs row = .ok (.convertedRow resp rtype stem, fs', calls) →
      resp.get cfg.smallSize = some s →
      resp.get cfg.mediumSize = some m →
      uploadBlock env (s :: m :: largeAppend (resp.get cfg.largeSize)) o = .error e →
      runRows cfg env w true o (row :: rest) st =
        runRows cfg env w true o rest
          { st with
            fs := fs'
            genCalls := st.genCalls ++ calls
            tally := st.tally.addConverted.addFailed }) ∧
    (∀ msg, row = .invalid msg →
      runRows cfg env w u o (row :: rest) st = .error (.jsonError msg)) ∧
    (∀ e, convertPhase cfg env w st.fs row = .error e →
      runRows cfg env w u o (row :: rest) st = .error e) ∧
    (∀ msg fs0, generateSamAccessFiles cfg env fs0 (.error msg) w u o
      = .error (.loadError msg)) := by
  refine ⟨?_, ?_, ?_, ?_, ?_⟩
  · intro fs' calls h
    exact runRows_cons_ok cfg env w u o row rest st _ (processRow_failed cfg env w u o st row fs' calls h)
  · intro resp rtype stem fs' calls s m e h hs hm hu
    exact runRows_cons_ok cfg env w true o row rest st _
      (processRow_upload_err cfg env w o st row resp rtype stem fs' calls s m e h hs hm hu)
  · intro msg hrow
    subst hrow
    exact runRows_cons_error cfg env w u o _ rest st _ (processRow_error cfg env w u o st _ _ rfl)
  · intro e h
    exact runRows_cons_error cfg env w u o row rest st e (processRow_error cfg env w u o st row e h)
  · intro msg fs0
    rfl

theorem per_row_error_policy_witness :
    (runRows sampleCfg uploadFailEnv false true false [imgRow] (initState fsImg) =
      runRows sampleCfg uploadFailEnv false true false []
        { initState fsImg with
          fs := fsA
          genCalls := (initState fsImg).genCalls ++ [callA]
          tally := (initState fsImg).tally.addConverted.addFailed }) ∧
    (runRows sampleCfg benignEnv false false false [RowJson.invalid "bad json"]
      (initState fsImg) = .error (.jsonError "bad json")) ∧
    (generateSamAccessFiles sampleCfg benignEnv fsImg (.error "no such file")
      false false false = .error (.loadError "no such file")) :=
  ⟨(per_row_error_policy sampleCfg uploadFailEnv false true false (initState fsImg)
      imgRow []).2.1 respA "image" "a" fsA [callA]
      "access/small/a.jpg" "access/medium/a.jpg" (.otherError "azure down")
      rfl rfl rfl rfl,
   (per_row_error_policy sampleCfg benignEnv false false false (initState fsImg)
      (RowJson.invalid "bad json") []).2.2.1 "bad json" rfl,
   (per_row_error_policy sampleCfg benignEnv false false false (initState fsImg)
      imgRow []).2.2.2.2 "no such file" fsImg⟩

/-- C3 counterexample: a malformed (non-integer) legal status token does
not default to a skip — `int` raises an uncaught ValueError and the run
aborts. -/
theorem rights_defaults_counterexample :
    generateSamAccessFiles sampleCfg benignEnv fsImg (.ok [badRow]) false false false
      = .error (.valueError "abc") := rfl

/-- C3 (amended): the evaluator parses the leading integer token before
any semicolon of each status string; a missing status key defaults to
legal "4" and contractual "1", so the record is skipped; but a malformed
token is not defaulted — it raises an uncaught ValueError that aborts
the run instead of skipping the record. -/
theorem rights_defaults (cfg : Config) (env : Env) (w u o : Bool) (st : PipeState)
    (fn : String) :
    (∀ cs, processRow cfg env w u o st
        (.ok { other_restrictions := none, contractual_status := cs, filename := some fn })
      = .ok { st with tally := st.tally.addSkipped }) ∧
    (∀ ls lv, parsePyInt (beforeSemi ls) = some lv → lv ≤ 1 →
      processRow cfg env w u o st
        (.ok { other_restrictions := some ls, contractual_status := none, filename := some fn })
      = .ok { st with tally := st.tally.addSkipped }) ∧
    (∀ ls cs, parsePyInt (beforeSemi ls) = none →
      processRow cfg env w u o st
        (.ok { other_restrictions := some ls, contractual_status := cs, filename := some fn })
      = .error (.valueError (beforeSemi ls))) := by
  refine ⟨?_, ?_, ?_⟩
  · intro cs
    have hr : checkRights "4" (cs.getD "1") = .ok .skipLegal := by
      simp only [checkRights]
      rw [show parsePyInt (beforeSemi "4") = some 4 from rfl]
      simp
    have hcv : convertPhase cfg env w st.fs
        (.ok { other_restrictions := none, contractual_status := cs, filename := some fn })
        = .ok (.skippedRow, st.fs, []) :=
      convertPhase_skipLegal cfg env w st.fs _ fn rfl hr
    rw [processRow_skipped cfg env w u o st _ st.fs [] hcv]
    simp
  · intro ls lv hl hlv
    have hr : checkRights ls "1" = .ok .skipContractual := by
      simp only [checkRights, hl]
      rw [if_neg (not_lt.mpr hlv)]
      rw [show parsePyInt (beforeSemi "1") = some 1 from rfl]
      simp
    have hcv : convertPhase cfg env w st.fs
        (.ok { other_restrictions := some ls, contractual_status := none, filename := some fn })
        = .ok (.skippedRow, st.fs, []) :=
      convertPhase_skipContractual cfg env w st.fs _ fn rfl hr
    rw [processRow_skipped cfg env w u o st _ st.fs [] hcv]
    simp
  · intro ls cs hl
    have hr : checkRights ls (cs.getD "1") = .error (.valueError (beforeSemi ls)) := by
      simp only [checkRights, hl]
    exact processRow_error cfg env w u o st _ _
      (convertPhase_rightsError cfg env w st.fs _ fn _ rfl hr)

theorem rights_defaults_witness :
    (processRow sampleCfg benignEnv false false false (initState fsImg)
        (.ok { other_restrictions := none, contractual_status := some "3",
               filename := some "a.jpg" })
      = .ok { initState fsImg with tally := (initState fsImg).tally.addSkipped }) ∧
    (processRow sampleCfg benignEnv false false false (initState fsImg)
        (.ok { other_restrictions := some "0", contractual_status := none,
               filename := some "a.jpg" })
      = .ok { initState fsImg with tally := (initState fsImg).tally.addSkipped }) ∧
    (processRow sampleCfg benignEnv false false false (initState fsImg)
        (.ok { other_restrictions := some "abc", contractual_status := some "3",
               filename := some "a.jpg" })
      = .error (.valueError "abc")) :=
  ⟨(rights_defaults sampleCfg benignEnv false false false (initState fsImg) "a.jpg").1
      (some "3"),
   (rights_defaults sampleCfg benignEnv false false false (initState fsImg) "a.jpg").2.1
      "0" 0 rfl (by decide),
   (rights_defaults sampleCfg benignEnv false false false (initState fsImg) "a.jpg").2.2
      "abc" (some "3") rfl⟩

/-- C4 counterexample: when rendering the PDF page fails, the raised
error is the underlying library error, not PDFConvertError, and it
aborts the whole run (the following row is never processed) instead of
being fatal to that record only. -/
theorem pdf_cover_error_counterexample :
    generateSamAccessFiles sampleCfg renderFailEnv fsPdf (.ok [pdfRow, imgRow])
      false false false = .error (.fitzError "bad xref") := rfl

/-- C4 (amended): only the PNG write of the cover extractor is guarded —
a write failure raises PDFConvertError carrying the underlying error,
while a rendering failure propagates the underlying library error
unchanged; in both cases the exception escapes the row loop and aborts
the batch rather than failing only that record. -/
theorem pdf_cover_error_policy (env : Env) (p folder : String) :
    (∀ e, env.renderError p = some e →
      convertPdfCoverToImage env p folder = .error (.fitzError e)) ∧
    (∀ e, env.renderError p = none →
      env.writePngError (folder ++ "/" ++ pyStem p ++ ".png") = some e →
      convertPdfCoverToImage env p folder = .error (.pdfConvertError e)) ∧
    (∀ (cfg : Config) (w u o : Bool) (st : PipeState) (d : SamData) (fn : String)
        (rest : List RowJson) (ex : PyExc),
      d.filename = some fn →
      checkRights (d.other_restrictions.getD "4") (d.contractual_status.getD "1") = .ok .proceed →
      st.fs.pathExists (cfg.masterPath ++ "/" ++ fn) = true →
      st.fs.isFile (cfg.masterPath ++ "/" ++ fn) = true →
      cfg.imageFormats.contains (pySuffix (cfg.masterPath ++ "/" ++ fn)) = false →
      pySuffix (cfg.masterPath ++ "/" ++ fn) = ".pdf" →
      convertPdfCoverToImage env (cfg.masterPath ++ "/" ++ fn) "./images/temp" = .error ex →
      runRows cfg env w u o ((.ok d) :: rest) st = .error ex) := by
  refine ⟨?_, ?_, ?_⟩
  · intro e he
    simp only [convertPdfCoverToImage, he]
  · intro e hr hw
    simp only [convertPdfCoverToImage, hr, hw]
  · intro cfg w u o st d fn rest ex hfn hr hex hisf hnimg hpdf hcv
    exact runRows_cons_error cfg env w u o _ rest st ex
      (processRow_error cfg env w u o st _ ex
        (convertPhase_pdf_error cfg env w st.fs d fn ex hfn hr hex hisf hnimg hpdf hcv))

theorem pdf_cover_error_policy_witness :
    (convertPdfCoverToImage renderFailEnv "master/doc.pdf" "./images/temp"
      = .error (.fitzError "bad xref")) ∧
    (convertPdfCoverToImage pdfWriteFailEnv "master/doc.pdf" "./images/temp"
      = .error (.pdfConvertError "disk full")) ∧
    (runRows sampleCfg pdfWriteFailEnv false false false [pdfRow] (initState fsPdf)
      = .error (.pdfConvertError "disk full")) :=
  ⟨(pdf_cover_error_policy renderFailEnv "master/doc.pdf" "./images/temp").1
      "bad xref" rfl,
   (pdf_cover_error_policy pdfWriteFailEnv "master/doc.pdf" "./images/temp").2.1
      "disk full" rfl rfl,
   (pdf_cover_error_policy pdfWriteFailEnv "master/doc.pdf" "./images/temp").2.2
      sampleCfg false false false (initState fsPdf)
      { other_restrictions := some "0", contractual_status := some "3",
        filename := some "doc.pdf" }
      "doc.pdf" [] (.pdfConvertError "disk full") rfl rfl rfl rfl rfl rfl rfl⟩

/-- C5, the code evaluated at the failing input: a web_document (PDF)
record with upload requested, whose two access files upload successfully
(the helper returns one URL per input path), ends tallied converted and
failed — not uploaded — and no OutputRecord is emitted, because the code
unconditionally reads urls[2] inside the guarded upload block. -/
theorem upload_positional_bug :
    (generateSamAccessFiles sampleCfg benignEnv fsPdf (.ok [pdfRow]) false true false).map
      (fun st => (st.tally, st.out)) = .ok (⟨1, 0, 1, 0⟩, []) := rfl

/-- C6 counterexample: one input row both converts and then fails its
upload, so two counters (converted and failed) are incremented for that
single row — the tally is not mutated exactly once per record outcome. -/
theorem tally_per_row_counterexample :
    (generateSamAccessFiles sampleCfg uploadFailEnv fsImg (.ok [imgRow]) false true false).map
      (fun st => st.tally) = .ok ⟨1, 0, 1, 0⟩ := rfl

/-- C6 (amended): each row increments exactly one of (skipped, failed,
converted) for its pre-upload outcome; a converted row with upload
requested additionally increments uploaded on success or failed on
failure — so a record whose upload fails ends with converted and failed
both incremented, emits no OutputRecord, and the loop continues with the
next record. -/
theorem tally_per_row (cfg : Config) (env : Env) (w o : Bool) (st : PipeState)
    (row : RowJson) (rest : List RowJson) :
    (∀ u fs' calls, convertPhase cfg env w st.fs row = .ok (.skippedRow, fs', calls) →
      processRow cfg env w u o st row
        = .ok { st with
                fs := fs'
                genCalls := st.genCalls ++ calls
                tally := st.tally.addSkipped }) ∧
    (∀ u fs' calls, convertPhase cfg env w st.fs row = .ok (.failedRow, fs', calls) →
      processRow cfg env w u o st row
        = .ok { st with
                fs := fs'
                genCalls := st.genCalls ++ calls
                tally := st.tally.addFailed }) ∧
    (∀ resp rtype stem fs' calls,
      convertPhase cfg env w st.fs row = .ok (.convertedRow resp rtype stem, fs', calls) →
      processRow cfg env w false o st row
        = .ok { st with
                fs := fs'
                genCalls := st.genCalls ++ calls
                tally := st.tally.addConverted
                out := st.out ++ [mkOutput stem (resp.get cfg.smallSize)
                  (resp.get cfg.mediumSize) rtype (resp.get cfg.largeSize)] }) ∧
    (∀ resp rtype stem fs' calls s m s2 m2 l2,
      convertPhase cfg env w st.fs row = .ok (.convertedRow resp rtype stem, fs', calls) →
      resp.get cfg.smallSize = some s →
      resp.get cfg.mediumSize = some m →
      uploadBlock env (s :: m :: largeAppend (resp.get cfg.largeSize)) o = .ok (s2, m2, l2) →
      processRow cfg env w true o st row
        = .ok { st with
                fs := fs'
                genCalls := st.genCalls ++ calls
                tally := st.tally.addConverted.addUploaded
                out := st.out ++ [mkOutput stem (some s2) (some m2) rtype (some l2)] }) ∧
    (∀ resp rtype stem fs' calls s m e,
      convertPhase cfg env w st.fs row = .ok (.convertedRow resp rtype stem, fs', calls) →
      resp.get cfg.smallSize = some s →
      resp.get cfg.mediumSize = some m →
      uploadBlock env (s :: m :: largeAppend (resp.get cfg.largeSize)) o = .error e →
      processRow cfg env w true o st row
        = .ok { st with
                fs := fs'
                genCalls := st.genCalls ++ calls
                tally := st.tally.addConverted.addFailed } ∧
      runRows cfg env w true o (row :: rest) st
        = runRows cfg env w true o rest
            { st with
              fs := fs'
              genCalls := st.genCalls ++ calls
              tally := st.tally.addConverted.addFailed }) := by
  refine ⟨?_, ?_, ?_, ?_, ?_⟩
  · intro u fs' calls h
    exact processRow_skipped cfg env w u o st row fs' calls h
  · intro u fs' calls h
    exact processRow_failed cfg env w u o st row fs' calls h
  · intro resp rtype stem fs' calls h
    exact processRow_converted_noUpload cfg env w o st row resp rtype stem fs' calls h
  · intro resp rtype stem fs' calls s m s2 m2 l2 h hs hm hu
    exact processRow_upload_ok cfg env w o st row resp rtype stem fs' calls s m s2 m2 l2 h hs hm hu
  · intro resp rtype stem fs' calls s m e h hs hm hu
    have hp := processRow_upload_err cfg env w o st row resp rtype stem fs' calls s m e h hs hm hu
    exact ⟨hp, runRows_cons_ok cfg env w true o row rest st _ hp⟩

theorem tally_per_row_witness :
    processRow sampleCfg uploadFailEnv false true false (initState fsImg) imgRow
      = .ok { initState fsImg with
              fs := fsA
              genCalls := (initState fsImg).genCalls ++ [callA]
              tally := (initState fsImg).tally.addConverted.addFailed } ∧
    runRows sampleCfg uploadFailEnv false true false [imgRow] (initState fsImg)
      = runRows sampleCfg uploadFailEnv false true false []
          { initState fsImg with
            fs := fsA
            genCalls := (initState fsImg).genCalls ++ [callA]
            tally := (initState fsImg).tally.addConverted.addFailed } :=
  (tally_per_row sampleCfg uploadFailEnv false false (initState fsImg) imgRow []).2.2.2.2
    respA "image" "a" fsA [callA] "access/small/a.jpg" "access/medium/a.jpg"
    (.otherError "azure down") rfl rfl rfl rfl

/-- C8: with overwrite false, a size whose destination file already
exists records an error in the response and is skipped without writing
(no path entry added, filesystem untouched), while the loop continues
with the remaining sizes; and at the pipeline level, a truthy error
entry in the generator response fails the whole record — tallied failed,
no OutputRecord — regardless of how many sizes succeeded. -/
theorem overwrite_soft_failure (cfg : Config) (env : Env) (stem : String) (w : Bool)
    (img : DecodedImage) (rots : List Int) (size : Nat) (rest : List Nat)
    (st : GenState) :
    (st.fs.pathExists (destFile cfg stem size) = true →
      (genStep cfg env stem w false img rots size st).resp.files = st.resp.files ∧
      (genStep cfg env stem w false img rots size st).resp.error
        = some ("File already exists: " ++ destFile cfg stem size) ∧
      (genStep cfg env stem w false img rots size st).fs = st.fs ∧
      genLoop cfg env stem w false img rots (size :: rest) st
        = genLoop cfg env stem w false img rots rest
            (genStep cfg env stem w false img rots size st)) ∧
    (∀ (u o : Bool) (pst : PipeState) (d : SamData) (fn : String),
      d.filename = some fn →
      checkRights (d.other_restrictions.getD "4") (d.contractual_status.getD "1") = .ok .proceed →
      pst.fs.pathExists (cfg.masterPath ++ "/" ++ fn) = true →
      pst.fs.isFile (cfg.masterPath ++ "/" ++ fn) = true →
      cfg.imageFormats.contains (pySuffix (cfg.masterPath ++ "/" ++ fn)) = true →
      (generateJpgs cfg env (cfg.masterPath ++ "/" ++ fn)
        [cfg.largeSize, cfg.mediumSize, cfg.smallSize] w false pst.fs).1.errTruthy = true →
      processRow cfg env w u o pst (.ok d)
        = .ok { pst with
                fs := (generateJpgs cfg env (cfg.masterPath ++ "/" ++ fn)
                  [cfg.largeSize, cfg.mediumSize, cfg.smallSize] w false pst.fs).2.1
                genCalls := pst.genCalls ++
                  [{ pathArg := cfg.masterPath ++ "/" ++ fn
                     sizesArg := [cfg.largeSize, cfg.mediumSize, cfg.smallSize]
                     watermarkArg := w, overwriteArg := false, qualityArg := 80
                     resp := (generateJpgs cfg env (cfg.masterPath ++ "/" ++ fn)
                       [cfg.largeSize, cfg.mediumSize, cfg.smallSize] w false pst.fs).1 }]
                tally := pst.tally.addFailed }) := by
  constructor
  · intro hex
    have h1 : genStep cfg env stem w false img rots size st
        = { st with
            trace := st.trace ++ [copyFor cfg w img rots size]
            resp := st.resp.setErr ("File already exists: " ++ destFile cfg stem size) } := by
      unfold genStep
      dsimp only
      rw [if_pos]
      simp [hex]
    refine ⟨?_, ?_, ?_, ?_⟩
    · simp [h1, GenResp.setErr]
    · simp [h1, GenResp.setErr]
    · simp [h1]
    · simp only [genLoop]
  · intro u o pst d fn hfn hr hex hisf himg herr
    have hcv := convertPhase_image cfg env w pst.fs d fn hfn hr hex hisf himg
    rw [finishConvert_error cfg env w pst.fs (cfg.masterPath ++ "/" ++ fn)
      [cfg.largeSize, cfg.mediumSize, cfg.smallSize] "image" herr] at hcv
    exact processRow_failed cfg env w u o pst _ _ _ hcv

/-- Filesystem that already holds the large destination of the sample
image, besides the master file. -/
def fsImgEx : FS := { files := ["master/a.jpg", "access/large/a.jpg"], dirs := [] }

/-- Generator state at the start of the sample per-size loop over
`fsImgEx`. -/
def gstB : GenState :=
  { resp := { files := [], error := none }, fs := fsImgEx, trace := [] }

/-- Generator response over `fsImgEx`: the large size errors, the other
two are written. -/
def respB : GenResp :=
  { files := [(640, "access/medium/a.jpg"), (150, "access/small/a.jpg")]
    error := some "File already exists: access/large/a.jpg" }

def fsB : FS :=
  { files := ["master/a.jpg", "access/large/a.jpg", "access/medium/a.jpg",
      "access/small/a.jpg"]
    dirs := [] }

def callB : GenCall :=
  { pathArg := "master/a.jpg", sizesArg := [1920, 640, 150], watermarkArg := false
    overwriteArg := false, qualityArg := 80, resp := respB }

theorem overwrite_soft_failure_witness :
    ((genStep sampleCfg benignEnv "a" false false sampleImg [270] 1920 gstB).resp.files
        = gstB.resp.files ∧
      (genStep sampleCfg benignEnv "a" false false sampleImg [270] 1920 gstB).resp.error
        = some ("File already exists: " ++ destFile sampleCfg "a" 1920) ∧
      (genStep sampleCfg benignEnv "a" false false sampleImg [270] 1920 gstB).fs = gstB.fs ∧
      genLoop sampleCfg benignEnv "a" false false sampleImg [270] (1920 :: [640, 150]) gstB
        = genLoop sampleCfg benignEnv "a" false false sampleImg [270] [640, 150]
            (genStep sampleCfg benignEnv "a" false false sampleImg [270] 1920 gstB)) ∧
    (processRow sampleCfg benignEnv false false false (initState fsImgEx) imgRow
      = .ok { initState fsImgEx with
              fs := fsB
              genCalls := (initState fsImgEx).genCalls ++ [callB]
              tally := (initState fsImgEx).tally.addFailed }) := by
  constructor
  · exact (overwrite_soft_failure sampleCfg benignEnv "a" false sampleImg [270] 1920
      [640, 150] gstB).1 rfl
  · have h := (overwrite_soft_failure sampleCfg benignEnv "a" false sampleImg [270] 1920
      [640, 150] gstB).2 false false (initState fsImgEx)
      { other_restrictions := some "0", contractual_status := some "3",
        filename := some "a.jpg" }
      "a.jpg" rfl rfl rfl rfl rfl rfl
    exact h

/-! ## C10 machinery -/

/-- The overwrite-independent view of a run result: the generator call
trace and the local filesystem. -/
def localView (r : Except PyExc PipeState) : Except PyExc (List GenCall × FS) :=
  r.map (fun st => (st.genCalls, st.fs))

theorem processRow_overwrite_free (cfg : Config) (env : Env) (w u o1 o2 : Bool)
    (st1 st2 : PipeState) (row : RowJson)
    (hg : st1.genCalls = st2.genCalls) (hf : st1.fs = st2.fs) :
    localView (processRow cfg env w u o1 st1 row)
      = localView (processRow cfg env w u o2 st2 row) := by
  unfold processRow
  rw [hf]
  cases hc : convertPhase cfg env w st2.fs row with
  | error e => rfl
  | ok t =>
    obtain ⟨outc, fs', calls⟩ := t
    cases outc with
    | skippedRow => simp [localView, Except.map, hg]
    | failedRow => simp [localView, Except.map, hg]
    | convertedRow resp rtype stem =>
      cases u with
      | false => simp [localView, Except.map, hg]
      | true =>
        cases hsm : resp.get cfg.smallSize with
        | none => simp [localView, Except.map, hg, hsm]
        | some sp =>
          cases hmd : resp.get cfg.mediumSize with
          | none => simp [localView, Except.map, hg, hsm, hmd]
          | some mp =>
            simp only [hsm, hmd]
            cases hub1 : uploadBlock env (sp :: mp :: largeAppend (resp.get cfg.largeSize)) o1 with
            | ok t1 =>
              obtain ⟨s2, m2, l2⟩ := t1
              cases hub2 : uploadBlock env (sp :: mp :: largeAppend (resp.get cfg.largeSize)) o2 with
              | ok t2 =>
                obtain ⟨s3, m3, l3⟩ := t2
                simp [localView, Except.map, hg, hub1, hub2]
              | error e2 => simp [localView, Except.map, hg, hub1, hub2]
            | error e1 =>
              cases hub2 : uploadBlock env (sp :: mp :: largeAppend (resp.get cfg.largeSize)) o2 with
              | ok t2 =>
                obtain ⟨s3, m3, l3⟩ := t2
                simp [localView, Except.map, hg, hub1, hub2]
              | error e2 => simp [localView, Except.map, hg, hub1, hub2]

theorem runRows_overwrite_free (cfg : Config) (env : Env) (w u o1 o2 : Bool)
    (rows : List RowJson) :
    ∀ st1 st2 : PipeState, st1.genCalls = st2.genCalls → st1.fs = st2.fs →
      localView (runRows cfg env w u o1 rows st1)
        = localView (runRows cfg env w u o2 rows st2) := by
  induction rows with
  | nil =>
    intro st1 st2 hg hf
    simp [runRows, localView, Except.map, hg, hf]
  | cons row rest ih =>
    intro st1 st2 hg hf
    have h := processRow_overwrite_free cfg env w u o1 o2 st1 st2 row hg hf
    cases h1 : processRow cfg env w u o1 st1 row with
    | error e1 =>
      cases h2 : processRow cfg env w u o2 st2 row with
      | error e2 =>
        rw [h1, h2] at h
        simp only [localView, Except.map] at h
        rw [runRows_cons_error cfg env w u o1 row rest st1 e1 h1,
          runRows_cons_error cfg env w u o2 row rest st2 e2 h2]
        simpa [localView, Except.map] using h
      | ok st2' =>
        rw [h1, h2] at h
        simp [localView, Except.map] at h
    | ok st1' =>
      cases h2 : processRow cfg env w u o2 st2 row with
      | error e2 =>
        rw [h1, h2] at h
        simp [localView, Except.map] at h
      | ok st2' =>
        rw [h1, h2] at h
        simp only [localView, Except.map, Except.ok.injEq, Prod.mk.injEq] at h
        rw [runRows_cons_ok cfg env w u o1 row rest st1 st1' h1,
          runRows_cons_ok cfg env w u o2 row rest st2 st2' h2]
        exact ih st1' st2' h.1 h.2

theorem finishConvert_calls (cfg : Config) (env : Env) (w : Bool) (fs : FS)
    (fp : String) (sizes : List Nat) (rtype : String) :
    ∃ outc fs' call, finishConvert cfg env w fs fp sizes rtype = .ok (outc, fs', [call])
      ∧ call.overwriteArg = false := by
  by_cases hE : (generateJpgs cfg env fp sizes w false fs).1.errTruthy = true
  · refine ⟨.failedRow, (generateJpgs cfg env fp sizes w false fs).2.1,
      { pathArg := fp, sizesArg := sizes, watermarkArg := w, overwriteArg := false,
        qualityArg := 80, resp := (generateJpgs cfg env fp sizes w false fs).1 }, ?_, rfl⟩
    exact finishConvert_error cfg env w fs fp sizes rtype hE
  · refine ⟨.convertedRow (generateJpgs cfg env fp sizes w false fs).1 rtype (pyStem fp),
      (generateJpgs cfg env fp sizes w false fs).2.1,
      { pathArg := fp, sizesArg := sizes, watermarkArg := w, overwriteArg := false,
        qualityArg := 80, resp := (generateJpgs cfg env fp sizes w false fs).1 }, ?_, rfl⟩
    exact finishConvert_ok cfg env w fs fp sizes rtype (by simpa using hE)

theorem convertPhase_overwriteArg (cfg : Config) (env : Env) (w : Bool) (fs : FS)
    (row : RowJson) (outc : ConvOutcome) (fs' : FS) (calls : List GenCall)
    (h : convertPhase cfg env w fs row = .ok (outc, fs', calls)) :
    ∀ c ∈ calls, c.overwriteArg = false := by
  cases row with
  | invalid msg => exact absurd h (by simp [convertPhase])
  | ok d =>
    unfold convertPhase at h
    cases hfn : d.filename with
    | none =>
      simp only [hfn] at h
      exact Except.noConfusion h
    | some fn =>
      simp only [hfn] at h
      cases hr : checkRights (d.other_restrictions.getD "4") (d.contractual_status.getD "1") with
      | error e =>
        simp only [hr] at h
        exact Except.noConfusion h
      | ok r =>
        cases r with
        | skipLegal =>
          simp only [hr, Except.ok.injEq, Prod.mk.injEq] at h
          obtain ⟨-, -, hc⟩ := h
          subst hc
          simp
        | skipContractual =>
          simp only [hr, Except.ok.injEq, Prod.mk.injEq] at h
          obtain ⟨-, -, hc⟩ := h
          subst hc
          simp
        | proceed =>
          simp only [hr] at h
          by_cases hex : (!fs.pathExists (cfg.masterPath ++ "/" ++ fn)) = true
          · rw [if_pos hex] at h
            simp only [Except.ok.injEq, Prod.mk.injEq] at h
            obtain ⟨-, -, hc⟩ := h
            subst hc
            simp
          · rw [if_neg hex] at h
            by_cases hisf : (!fs.isFile (cfg.masterPath ++ "/" ++ fn)) = true
            · rw [if_pos hisf] at h
              simp only [Except.ok.injEq, Prod.mk.injEq] at h
              obtain ⟨-, -, hc⟩ := h
              subst hc
              simp
            · rw [if_neg hisf] at h
              by_cases himg : cfg.imageFormats.contains (pySuffix (cfg.masterPath ++ "/" ++ fn)) = true
              · rw [if_pos himg] at h
                obtain ⟨outc0, fs0, call0, heq, hov⟩ :=
                  finishConvert_calls cfg env w fs (cfg.masterPath ++ "/" ++ fn)
                    [cfg.largeSize, cfg.mediumSize, cfg.smallSize] "image"
                rw [heq] at h
                simp only [Except.ok.injEq, Prod.mk.injEq] at h
                obtain ⟨-, -, hc⟩ := h
                subst hc
                intro c hcm
                rw [List.mem_singleton.mp hcm]
                exact hov
              · rw [if_neg himg] at h
                by_cases hpdf : pySuffix (cfg.masterPath ++ "/" ++ fn) = ".pdf"
                · rw [if_pos hpdf] at h
                  cases hcv : convertPdfCoverToImage env (cfg.masterPath ++ "/" ++ fn) "./images/temp" with
                  | error e =>
                    simp only [hcv] at h
                    exact Except.noConfusion h
                  | ok newPath =>
                    simp only [hcv] at h
                    obtain ⟨outc0, fs0, call0, heq, hov⟩ :=
                      finishConvert_calls cfg env w (fs.addFile newPath) newPath
                        [cfg.mediumSize, cfg.smallSize] "web_document"
                    rw [heq] at h
                    simp only [Except.ok.injEq, Prod.mk.injEq] at h
                    obtain ⟨-, -, hc⟩ := h
                    subst hc
                    intro c hcm
                    rw [List.mem_singleton.mp hcm]
                    exact hov
                · rw [if_neg hpdf] at h
                  simp only [Except.ok.injEq, Prod.mk.injEq] at h
                  obtain ⟨-, -, hc⟩ := h
                  subst hc
                  simp

/-- C10: two runs differing only in the overwrite argument have the same
generator-call trace (same arguments, same responses) and the same local
filesystem outcome — including identical abort behaviour — because the
pipeline never forwards overwrite to the generator (every generator call
records the callee default overwrite = false), so overwrite reaches only
the upload call. -/
theorem overwrite_not_forwarded (cfg : Config) (env : Env) (fs0 : FS)
    (load : Except String (List RowJson)) (w u o1 o2 : Bool) :
    (localView (generateSamAccessFiles cfg env fs0 load w u o1)
      = localView (generateSamAccessFiles cfg env fs0 load w u o2)) ∧
    (∀ (fs : FS) (row : RowJson) (outc : ConvOutcome) (fs' : FS) (calls : List GenCall),
      convertPhase cfg env w fs row = .ok (outc, fs', calls) →
      ∀ c ∈ calls, c.overwriteArg = false) := by
  constructor
  · cases load with
    | error e => rfl
    | ok rows =>
      exact runRows_overwrite_free cfg env w u o1 o2 rows (initState fs0) (initState fs0) rfl rfl
  · intro fs row outc fs' calls h
    exact convertPhase_overwriteArg cfg env w fs row outc fs' calls h

theorem overwrite_not_forwarded_witness :
    (localView (generateSamAccessFiles sampleCfg benignEnv fsImg (.ok [imgRow]) false false false)
      = localView (generateSamAccessFiles sampleCfg benignEnv fsImg (.ok [imgRow]) false false true)) ∧
    callA.overwriteArg = false :=
  ⟨(overwrite_not_forwarded sampleCfg benignEnv fsImg (.ok [imgRow]) false false false true).1,
   (overwrite_not_forwarded sampleCfg benignEnv fsImg (.ok [imgRow]) false false false true).2
     fsImg imgRow (.convertedRow respA "image" "a") fsA [callA] rfl callA
     (List.mem_singleton.mpr rfl)⟩

end SamAccess
